import Mathlib

/-!
Shallow embedding of `src/sqlite3.ts` (local sqlite3 client of libsql-client-ts):
the value codec (`valueFromSql`, `valueToSql`), statement execution
(`executeStmt`, `mapSqliteError`), the client guard (`Sqlite3Client`) and the
transaction state machine (`Sqlite3Transaction`), together with theorems
settling the specification claims about them.
-/

set_option maxRecDepth 4000

namespace LibsqlSqlite3

/-- `IntMode` — selects how a native 64-bit integer is rendered on decode. -/
inductive IntMode
  | number
  | bigint
  | string
deriving DecidableEq, Repr

/-- A JavaScript number: either a finite value (modelled exactly as a rational)
or one of the non-finite values Infinity, -Infinity, NaN. -/
inductive JsNumber
  | finite (q : ℚ)
  | posInf
  | negInf
  | nan
deriving DecidableEq, Repr

/-- `Number.isFinite` on the JavaScript-number model. -/
def JsNumber.isFinite : JsNumber → Bool
  | .finite _ => true
  | _ => false

/-- An engine-native value as returned by the engine with `safeIntegers(true)`:
integers arrive as bigints, blobs as byte buffers. -/
inductive SqlValue
  | null
  | integer (v : ℤ)
  | real (q : ℚ)
  | text (s : String)
  | blob (bytes : List ℕ)
deriving DecidableEq, Repr

/-- A decoded host value (`Value` in `api.ts`): what `valueFromSql` produces. -/
inductive Value
  | null
  | number (n : JsNumber)
  | bigint (v : ℤ)
  | text (s : String)
  | blob (bytes : List ℕ)
deriving DecidableEq, Repr

/-- A host value accepted as an argument (`InValue` in `api.ts`): what
`valueToSql` consumes.  `date` carries the millisecond epoch of the `Date`,
`undef` is JavaScript `undefined`, `boolean` a JavaScript boolean. -/
inductive InValue
  | null
  | number (n : JsNumber)
  | bigint (v : ℤ)
  | text (s : String)
  | blob (bytes : List ℕ)
  | boolean (b : Bool)
  | date (ms : ℤ)
  | undef
deriving DecidableEq, Repr

/-- An encoded argument as handed to the engine: the possible results of
`valueToSql`. -/
inductive SqlArg
  | null
  | number (n : JsNumber)
  | integer (v : ℤ)
  | text (s : String)
  | blob (bytes : List ℕ)
deriving DecidableEq, Repr

/-- The JavaScript error values thrown by this module: native `RangeError` /
`TypeError` / `Error`, the engine's native `SqliteError` (message and code),
and `LibsqlError` (message, stable code, optional original cause). -/
inductive JsError
  | rangeError (msg : String)
  | typeError (msg : String)
  | plainError (msg : String)
  | sqliteError (msg : String) (code : String)
  | libsqlError (msg : String) (code : String) (cause : Option JsError)

/-- Decidable equality for `JsError` (written by hand: the `cause` field makes
it a nested inductive, which the deriving handler does not cover). -/
def JsError.decEq : (a b : JsError) → Decidable (a = b)
  | .rangeError m, .rangeError n =>
    if h : m = n then .isTrue (by rw [h]) else .isFalse (fun e => by cases e; exact h rfl)
  | .typeError m, .typeError n =>
    if h : m = n then .isTrue (by rw [h]) else .isFalse (fun e => by cases e; exact h rfl)
  | .plainError m, .plainError n =>
    if h : m = n then .isTrue (by rw [h]) else .isFalse (fun e => by cases e; exact h rfl)
  | .sqliteError m c, .sqliteError n d =>
    if h : m = n then
      if h2 : c = d then .isTrue (by rw [h, h2])
      else .isFalse (fun e => by cases e; exact h2 rfl)
    else .isFalse (fun e => by cases e; exact h rfl)
  | .libsqlError m c o, .libsqlError n d p =>
    if h : m = n then
      if h2 : c = d then
        match o, p with
        | none, none => .isTrue (by rw [h, h2])
        | some x, some y =>
          match JsError.decEq x y with
          | .isTrue hxy => .isTrue (by rw [h, h2, hxy])
          | .isFalse hxy => .isFalse (fun e => by cases e; exact hxy rfl)
        | none, some _ => .isFalse (fun e => by cases e)
        | some _, none => .isFalse (fun e => by cases e)
      else .isFalse (fun e => by cases e; exact h2 rfl)
    else .isFalse (fun e => by cases e; exact h rfl)
  | .rangeError _, .typeError _ => .isFalse (fun e => by cases e)
  | .rangeError _, .plainError _ => .isFalse (fun e => by cases e)
  | .rangeError _, .sqliteError _ _ => .isFalse (fun e => by cases e)
  | .rangeError _, .libsqlError _ _ _ => .isFalse (fun e => by cases e)
  | .typeError _, .rangeError _ => .isFalse (fun e => by cases e)
  | .typeError _, .plainError _ => .isFalse (fun e => by cases e)
  | .typeError _, .sqliteError _ _ => .isFalse (fun e => by cases e)
  | .typeError _, .libsqlError _ _ _ => .isFalse (fun e => by cases e)
  | .plainError _, .rangeError _ => .isFalse (fun e => by cases e)
  | .plainError _, .typeError _ => .isFalse (fun e => by cases e)
  | .plainError _, .sqliteError _ _ => .isFalse (fun e => by cases e)
  | .plainError _, .libsqlError _ _ _ => .isFalse (fun e => by cases e)
  | .sqliteError _ _, .rangeError _ => .isFalse (fun e => by cases e)
  | .sqliteError _ _, .typeError _ => .isFalse (fun e => by cases e)
  | .sqliteError _ _, .plainError _ => .isFalse (fun e => by cases e)
  | .sqliteError _ _, .libsqlError _ _ _ => .isFalse (fun e => by cases e)
  | .libsqlError _ _ _, .rangeError _ => .isFalse (fun e => by cases e)
  | .libsqlError _ _ _, .typeError _ => .isFalse (fun e => by cases e)
  | .libsqlError _ _ _, .plainError _ => .isFalse (fun e => by cases e)
  | .libsqlError _ _ _, .sqliteError _ _ => .isFalse (fun e => by cases e)

instance : DecidableEq JsError := JsError.decEq

/-- `minSafeBigint = -9007199254740991n` from the source. -/
def minSafeBigint : ℤ := -9007199254740991

/-- `maxSafeBigint = 9007199254740991n` from the source. -/
def maxSafeBigint : ℤ := 9007199254740991

/-- `minInteger = -9223372036854775808n` from the source. -/
def minInteger : ℤ := -9223372036854775808

/-- `maxInteger = 9223372036854775807n` from the source. -/
def maxInteger : ℤ := 9223372036854775807

/-- Decimal rendering of a natural number (most significant digit first,
`"0"` for zero): the base-10 digit string. -/
def natToDec (n : ℕ) : String :=
  if n = 0 then "0" else String.mk ((Nat.digits 10 n).reverse.map Nat.digitChar)

/-- JavaScript `"" + v` on a bigint: the exact base-10 rendering, with a
leading minus sign for negative values. -/
def bigintToString (v : ℤ) : String :=
  if v < 0 then "-" ++ natToDec v.natAbs else natToDec v.natAbs

/-- `valueFromSql(sqlValue, intMode)` from the source: decode one engine-native
value under the given `IntMode`.  A `Buffer` is exposed via its underlying
bytes; every other native type passes through unchanged. -/
def valueFromSql (sqlValue : SqlValue) (intMode : IntMode) : Except JsError Value :=
  match sqlValue with
  | .integer v =>
    match intMode with
    | .number =>
      if v < minSafeBigint ∨ v > maxSafeBigint then
        .error (.rangeError
          "Received integer which cannot be safely represented as a JavaScript number")
      else
        .ok (.number (.finite (v : ℚ)))
    | .bigint => .ok (.bigint v)
    | .string => .ok (.text (bigintToString v))
  | .blob bytes => .ok (.blob bytes)
  | .null => .ok .null
  | .real q => .ok (.number (.finite q))
  | .text s => .ok (.text s)

/-- `valueToSql(value)` from the source: encode one host argument value. -/
def valueToSql (value : InValue) : Except JsError SqlArg :=
  match value with
  | .number n =>
    if n.isFinite then
      .ok (.number n)
    else
      .error (.rangeError "Only finite numbers (not Infinity or NaN) can be passed as arguments")
  | .bigint v =>
    if v < minInteger ∨ v > maxInteger then
      .error (.rangeError "bigint is too large to be represented as a 64-bit integer and passed as argument")
    else
      .ok (.integer v)
  | .boolean b => .ok (.integer (if b then 1 else 0))
  | .blob bytes => .ok (.blob bytes)
  | .date ms => .ok (.number (.finite (ms : ℚ)))
  | .undef => .error (.typeError "undefined cannot be passed as argument to the database")
  | .null => .ok .null
  | .text s => .ok (.text s)

/-- The natural re-injection of a decoded `Value` as an argument `InValue`
(in TypeScript, `Value` is a subtype of `InValue`, so this is the identity). -/
def valueAsIn : Value → InValue
  | .null => .null
  | .number n => .number n
  | .bigint v => .bigint v
  | .text s => .text s
  | .blob bytes => .blob bytes

/-- Inverse of the per-digit character rendering: `'0'..'9'` back to `0..9`. -/
def decCharToNat (c : Char) : ℕ := c.toNat - 48

/-- Parse a list of decimal digit characters (most significant first). -/
def decListToNat (l : List Char) : ℕ :=
  Nat.ofDigits 10 ((l.map decCharToNat).reverse)

/-- Parse a decimal string with an optional leading minus sign back to an
integer; a left inverse of `bigintToString`. -/
def decStringToInt (s : String) : ℤ :=
  if s.data.head? = some (Char.ofNat 45) then -(decListToNat (s.data.drop 1) : ℤ)
  else (decListToNat s.data : ℤ)

/-- The arguments of an `InStatement`: an ordered sequence (positional
binding) or a mapping of parameter name to value (named binding). -/
inductive InArgs
  | positional (values : List InValue)
  | named (pairs : List (String × InValue))

/-- `InStatement` from `api.ts`: a raw SQL string, or `{sql, args}`. -/
inductive InStatement
  | sql (s : String)
  | stmt (sql : String) (args : InArgs)

/-- Sigil stripping from `executeStmt`: when `name[0]` is `@` (code 64),
`$` (code 36) or `:` (code 58), `name.substring(1)` is used for the lookup;
otherwise the name is used as is. -/
def normalizeArgName (name : String) : String :=
  match name.data with
  | [] => name
  | c :: rest =>
    if c = Char.ofNat 64 ∨ c = Char.ofNat 36 ∨ c = Char.ofNat 58 then String.mk rest
    else name

/-- The encoded arguments handed to the engine: positional list or
name-to-value mapping (as an association list in insertion order). -/
inductive SqlArgs
  | positional (values : List SqlArg)
  | named (pairs : List (String × SqlArg))
deriving DecidableEq

/-- `stmt.args.map(valueToSql)` for positional arguments: encode each value in
order, propagating the first thrown error. -/
def mapValueToSql : List InValue → Except JsError (List SqlArg)
  | [] => .ok []
  | v :: vs =>
    match valueToSql v with
    | .error e => .error e
    | .ok a =>
      match mapValueToSql vs with
      | .error e => .error e
      | .ok as => .ok (a :: as)

/-- The `for (const name in stmt.args)` loop for named arguments: strip the
sigil from each name, encode each value, propagating the first thrown error. -/
def mapNamedToSql : List (String × InValue) → Except JsError (List (String × SqlArg))
  | [] => .ok []
  | p :: ps =>
    match valueToSql p.2 with
    | .error e => .error e
    | .ok a =>
      match mapNamedToSql ps with
      | .error e => .error e
      | .ok as => .ok ((normalizeArgName p.1, a) :: as)

/-- The argument-normalization prefix of `executeStmt`: a raw SQL string gets
the empty positional list; otherwise each argument is encoded with
`valueToSql`, and named arguments additionally have their sigil stripped. -/
def stmtArgs (stmt : InStatement) : Except JsError SqlArgs :=
  match stmt with
  | .sql _ => .ok (.positional [])
  | .stmt _ (.positional values) =>
    match mapValueToSql values with
    | .error e => .error e
    | .ok as => .ok (.positional as)
  | .stmt _ (.named pairs) =>
    match mapNamedToSql pairs with
    | .error e => .error e
    | .ok as => .ok (.named as)

/-- `ResultSet` (as built through `ResultSetImpl`): ordered column names,
decoded rows, rows-affected count, optional last-inserted-row id. -/
structure ResultSet where
  columns : List String
  rows : List (List Value)
  rowsAffected : ℕ
  lastInsertRowid : Option ℤ
deriving DecidableEq

/-- The engine's reply to one prepared statement, as observed by
`executeStmt`: either the statement returns data (`raw(true)` succeeded:
column names and raw rows), or it is a mutation (`raw()` threw, `run` reports
changes and last insert rowid), or the engine threw its native `SqliteError`
somewhere during preparation or execution. -/
inductive EngineReply
  | rows (columns : List String) (rows : List (List SqlValue))
  | run (changes : ℕ) (lastInsertRowid : ℤ)
  | sqlFailure (msg : String) (code : String)

/-- `rowFromSql(sqlRow, columns, intMode)` from the source, restricted to the
positional view: decode every value of one raw row via `valueFromSql`,
propagating the first thrown decode error. -/
def rowFromSql (sqlRow : List SqlValue) (intMode : IntMode) : Except JsError (List Value) :=
  match sqlRow with
  | [] => .ok []
  | v :: rest =>
    match valueFromSql v intMode with
    | .error e => .error e
    | .ok w =>
      match rowFromSql rest intMode with
      | .error e => .error e
      | .ok ws => .ok (w :: ws)

/-- `sqlStmt.all(args).map(rowFromSql)`: decode every raw row. -/
def rowsFromSql (rawRows : List (List SqlValue)) (intMode : IntMode) :
    Except JsError (List (List Value)) :=
  match rawRows with
  | [] => .ok []
  | r :: rest =>
    match rowFromSql r intMode with
    | .error e => .error e
    | .ok row =>
      match rowsFromSql rest intMode with
      | .error e => .error e
      | .ok rows => .ok (row :: rows)

/-- `mapSqliteError(e)` from the source: the engine's native `SqliteError`
becomes a `LibsqlError` with the same message, the engine's code, and the
original error as cause; every other thrown value is returned unchanged. -/
def mapSqliteError (e : JsError) : JsError :=
  match e with
  | .sqliteError msg code => .libsqlError msg code (some (.sqliteError msg code))
  | _ => e

/-- `executeStmt(db, stmt, intMode)` from the source, with the engine handle
abstracted to its observable reply.  Returns the result together with a flag
recording whether the engine was touched at all (argument encoding happens
first; when it fails, the error propagates before any engine call).  Inside
the engine interaction, everything thrown — the engine's native error as well
as the per-value decode errors of `valueFromSql` — is rethrown through
`mapSqliteError`.  On the data path `rowsAffected` is 0 and the rowid absent;
on the mutation path columns and rows are empty and the engine's report is
returned. -/
def executeStmt (reply : EngineReply) (stmt : InStatement) (intMode : IntMode) :
    Except JsError ResultSet × Bool :=
  match stmtArgs stmt with
  | .error e => (.error e, false)
  | .ok _ =>
    match reply with
    | .rows columns rawRows =>
      match rowsFromSql rawRows intMode with
      | .error e => (.error (mapSqliteError e), true)
      | .ok rows => (.ok ⟨columns, rows, 0, none⟩, true)
    | .run changes lastInsertRowid =>
      (.ok ⟨[], [], changes, some lastInsertRowid⟩, true)
    | .sqlFailure msg code =>
      (.error (mapSqliteError (.sqliteError msg code)), true)

/-- Whether an `Except` value is a success. -/
def exceptOk {ε α : Type _} : Except ε α → Bool
  | .ok _ => true
  | .error _ => false

/-- The observable liveness state of one engine handle: better-sqlite3's
`open` and `inTransaction` flags. -/
structure TxState where
  isOpen : Bool
  inTransaction : Bool
deriving DecidableEq

/-- A fresh handle right after `new Database(path, options)`: open, and not
inside a transaction. -/
def freshHandle : TxState := ⟨true, false⟩

/-- Abstract engine collaborator: `step` is the observable effect of running
one prepared statement on a handle (its reply, and the handle's new
`inTransaction` flag — the `open` flag changes only through `close()`);
`exec` is the effect of `db.exec(sql)` on a raw multi-statement script. -/
structure Engine where
  step : TxState → InStatement → EngineReply × Bool
  exec : TxState → String → Except JsError Unit × Bool

/-- One recorded interaction with the engine. -/
inductive EngineEvent
  | openDb
  | stmtEvent (stmt : InStatement)
  | execEvent (sql : String)
  | closeDb

/-- `executeStmt` run against a live handle: arguments are encoded first (a
failure there leaves the engine untouched); otherwise the engine executes the
statement, its `inTransaction` flag is updated, and the reply is interpreted
exactly as in `executeStmt`. -/
def executeStmtOn (step : TxState → InStatement → EngineReply × Bool) (st : TxState)
    (stmt : InStatement) (intMode : IntMode) :
    Except JsError ResultSet × TxState × Bool :=
  match stmtArgs stmt with
  | .error e => (.error e, st, false)
  | .ok _ =>
    let p := step st stmt
    ((executeStmt p.1 stmt intMode).1, { st with inTransaction := p.2 }, true)

/-- `executeMultiple(db, sql)` from the source: `db.exec(sql)`, any failure
rethrown through `mapSqliteError`. -/
def executeMultiple (eng : Engine) (st : TxState) (sql : String) :
    Except JsError Unit × TxState :=
  let p := eng.exec st sql
  match p.1 with
  | .error e => (.error (mapSqliteError e), { st with inTransaction := p.2 })
  | .ok _ => (.ok (), { st with inTransaction := p.2 })

/-- The lifecycle error thrown by `Sqlite3Transaction.#checkNotClosed`. -/
def transactionClosedError : JsError :=
  .libsqlError "The transaction is closed" "TRANSACTION_CLOSED" none

/-- The lifecycle error thrown by `Sqlite3Client.#checkNotClosed`. -/
def clientClosedError : JsError :=
  .libsqlError "The client is closed" "CLIENT_CLOSED" none

/-- The error thrown inside `Sqlite3Client.batch` when the engine reports no
active transaction before a statement. -/
def transactionRolledBackError : JsError :=
  .libsqlError "The transaction has been rolled back" "TRANSACTION_CLOSED" none

/-- `Sqlite3Transaction.#checkNotClosed`: fails with the transaction-closed
lifecycle error unless the handle is open and the engine reports an active
transaction. -/
def Sqlite3Transaction.checkNotClosed (st : TxState) : Except JsError Unit :=
  if !st.isOpen || !st.inTransaction then .error transactionClosedError else .ok ()

/-- `Sqlite3Transaction.closed` getter: `!this.#database.open`. -/
def Sqlite3Transaction.closed (st : TxState) : Bool := !st.isOpen

/-- `Sqlite3Transaction.close()`: force-release the handle via `db.close()`
without issuing any SQL. -/
def Sqlite3Transaction.close (st : TxState) : TxState × List EngineEvent :=
  ({ st with isOpen := false }, [.closeDb])

/-- `Sqlite3Transaction.execute(stmt)`: guard, then one statement on the
transaction's handle.  Returns (result, new handle state, engine trace). -/
def Sqlite3Transaction.execute (eng : Engine) (intMode : IntMode) (st : TxState)
    (stmt : InStatement) : Except JsError ResultSet × TxState × List EngineEvent :=
  match Sqlite3Transaction.checkNotClosed st with
  | .error e => (.error e, st, [])
  | .ok _ =>
    let q := executeStmtOn eng.step st stmt intMode
    (q.1, q.2.1, if q.2.2 then [.stmtEvent stmt] else [])

/-- The loop body of `Sqlite3Transaction.batch`: `stmts.map` where each
iteration re-runs the guard before executing its statement. -/
def Sqlite3Transaction.batchGo (eng : Engine) (intMode : IntMode) :
    List InStatement → TxState → Except JsError (List ResultSet) × TxState × List EngineEvent
  | [], st => (.ok [], st, [])
  | stmt :: rest, st =>
    match Sqlite3Transaction.checkNotClosed st with
    | .error e => (.error e, st, [])
    | .ok _ =>
      let q := executeStmtOn eng.step st stmt intMode
      let tr := if q.2.2 then [EngineEvent.stmtEvent stmt] else []
      match q.1 with
      | .error e => (.error e, q.2.1, tr)
      | .ok rs =>
        let w := Sqlite3Transaction.batchGo eng intMode rest q.2.1
        match w.1 with
        | .error e => (.error e, w.2.1, tr ++ w.2.2)
        | .ok rss => (.ok (rs :: rss), w.2.1, tr ++ w.2.2)

/-- `Sqlite3Transaction.batch(stmts)` from the source. -/
def Sqlite3Transaction.batch (eng : Engine) (intMode : IntMode) (st : TxState)
    (stmts : List InStatement) : Except JsError (List ResultSet) × TxState × List EngineEvent :=
  Sqlite3Transaction.batchGo eng intMode stmts st

/-- `Sqlite3Transaction.executeMultiple(sql)`: guard, then `db.exec`. -/
def Sqlite3Transaction.executeMultiple (eng : Engine) (st : TxState) (sql : String) :
    Except JsError Unit × TxState × List EngineEvent :=
  match Sqlite3Transaction.checkNotClosed st with
  | .error e => (.error e, st, [])
  | .ok _ =>
    let p := LibsqlSqlite3.executeMultiple eng st sql
    (p.1, p.2, [.execEvent sql])

/-- `Sqlite3Transaction.rollback()`: a no-op if the handle was already
released; otherwise the guard runs, then ROLLBACK is issued and — only when it
succeeded — the handle is released. -/
def Sqlite3Transaction.rollback (eng : Engine) (intMode : IntMode) (st : TxState) :
    Except JsError Unit × TxState × List EngineEvent :=
  if !st.isOpen then (.ok (), st, [])
  else
    match Sqlite3Transaction.checkNotClosed st with
    | .error e => (.error e, st, [])
    | .ok _ =>
      let q := executeStmtOn eng.step st (.sql "ROLLBACK") intMode
      match q.1 with
      | .error e => (.error e, q.2.1, [.stmtEvent (.sql "ROLLBACK")])
      | .ok _ =>
        (.ok (), { q.2.1 with isOpen := false }, [.stmtEvent (.sql "ROLLBACK"), .closeDb])

/-- `Sqlite3Transaction.commit()`: guard, then COMMIT is issued and — only
when it succeeded — the handle is released. -/
def Sqlite3Transaction.commit (eng : Engine) (intMode : IntMode) (st : TxState) :
    Except JsError Unit × TxState × List EngineEvent :=
  match Sqlite3Transaction.checkNotClosed st with
  | .error e => (.error e, st, [])
  | .ok _ =>
    let q := executeStmtOn eng.step st (.sql "COMMIT") intMode
    match q.1 with
    | .error e => (.error e, q.2.1, [.stmtEvent (.sql "COMMIT")])
    | .ok _ =>
      (.ok (), { q.2.1 with isOpen := false }, [.stmtEvent (.sql "COMMIT"), .closeDb])

/-- `TransactionMode` from `api.ts`. -/
inductive TransactionMode
  | write
  | read
  | deferred

/-- Modelled from the spec: `transactionModeToBegin` lives in `util.js`,
which is not among the given sources; the spec says only that "issuing the
mode-specific BEGIN on a freshly opened handle" enters a transaction, so each
mode is mapped to a BEGIN statement text. -/
def transactionModeToBegin : TransactionMode → String
  | .write => "BEGIN IMMEDIATE"
  | .read => "BEGIN TRANSACTION READONLY"
  | .deferred => "BEGIN DEFERRED"

/-- The state of a `Sqlite3Client`: its construction parameters and the
public `closed` flag. -/
structure Sqlite3Client where
  path : String
  intMode : IntMode
  closed : Bool

/-- `Sqlite3Client.#checkNotClosed`. -/
def Sqlite3Client.checkNotClosed (c : Sqlite3Client) : Except JsError Unit :=
  if c.closed then .error clientClosedError else .ok ()

/-- `Sqlite3Client.close()`: sets the `closed` flag; nothing else happens. -/
def Sqlite3Client.close (c : Sqlite3Client) : Sqlite3Client := { c with closed := true }

/-- `Sqlite3Client.execute(stmt)`: guard, open a fresh handle, run the one
statement, close the handle on every exit path. -/
def Sqlite3Client.execute (c : Sqlite3Client) (eng : Engine) (stmt : InStatement) :
    Except JsError ResultSet × List EngineEvent :=
  match c.checkNotClosed with
  | .error e => (.error e, [])
  | .ok _ =>
    let q := executeStmtOn eng.step freshHandle stmt c.intMode
    (q.1, .openDb :: ((if q.2.2 then [EngineEvent.stmtEvent stmt] else []) ++ [.closeDb]))

/-- The loop body of `Sqlite3Client.batch`: each statement first checks that
the engine still reports an active transaction, failing with the rolled-back
error otherwise. -/
def Sqlite3Client.batchGo (eng : Engine) (intMode : IntMode) :
    List InStatement → TxState → Except JsError (List ResultSet) × TxState × List EngineEvent
  | [], st => (.ok [], st, [])
  | stmt :: rest, st =>
    if !st.inTransaction then (.error transactionRolledBackError, st, [])
    else
      let q := executeStmtOn eng.step st stmt intMode
      let tr := if q.2.2 then [EngineEvent.stmtEvent stmt] else []
      match q.1 with
      | .error e => (.error e, q.2.1, tr)
      | .ok rs =>
        let w := Sqlite3Client.batchGo eng intMode rest q.2.1
        match w.1 with
        | .error e => (.error e, w.2.1, tr ++ w.2.2)
        | .ok rss => (.ok (rs :: rss), w.2.1, tr ++ w.2.2)

/-- `Sqlite3Client.batch(stmts, mode)`: guard, fresh handle, BEGIN, the
statements (each guarded by the `inTransaction` check), COMMIT, and the handle
is closed on every exit path. -/
def Sqlite3Client.batch (c : Sqlite3Client) (eng : Engine) (stmts : List InStatement)
    (mode : TransactionMode) : Except JsError (List ResultSet) × List EngineEvent :=
  match c.checkNotClosed with
  | .error e => (.error e, [])
  | .ok _ =>
    let beginStmt : InStatement := .sql (transactionModeToBegin mode)
    let b := executeStmtOn eng.step freshHandle beginStmt c.intMode
    match b.1 with
    | .error e => (.error e, [.openDb, .stmtEvent beginStmt, .closeDb])
    | .ok _ =>
      let w := Sqlite3Client.batchGo eng c.intMode stmts b.2.1
      match w.1 with
      | .error e => (.error e, [.openDb, .stmtEvent beginStmt] ++ w.2.2 ++ [.closeDb])
      | .ok rss =>
        let f := executeStmtOn eng.step w.2.1 (.sql "COMMIT") c.intMode
        let tr := [EngineEvent.openDb, .stmtEvent beginStmt] ++ w.2.2
            ++ [.stmtEvent (.sql "COMMIT"), .closeDb]
        match f.1 with
        | .error e => (.error e, tr)
        | .ok _ => (.ok rss, tr)

/-- `Sqlite3Client.transaction(mode)`: guard, fresh handle, BEGIN; on success
the handle (still open) is handed to the new `Sqlite3Transaction`, on failure
it is closed. -/
def Sqlite3Client.transaction (c : Sqlite3Client) (eng : Engine) (mode : TransactionMode) :
    Except JsError TxState × List EngineEvent :=
  match c.checkNotClosed with
  | .error e => (.error e, [])
  | .ok _ =>
    let beginStmt : InStatement := .sql (transactionModeToBegin mode)
    let b := executeStmtOn eng.step freshHandle beginStmt c.intMode
    match b.1 with
    | .error e => (.error e, [.openDb, .stmtEvent beginStmt, .closeDb])
    | .ok _ => (.ok b.2.1, [.openDb, .stmtEvent beginStmt])

/-- `Sqlite3Client.executeMultiple(sql)`: guard, fresh handle, `db.exec`,
close on every exit path. -/
def Sqlite3Client.executeMultiple (c : Sqlite3Client) (eng : Engine) (sql : String) :
    Except JsError Unit × List EngineEvent :=
  match c.checkNotClosed with
  | .error e => (.error e, [])
  | .ok _ =>
    let p := LibsqlSqlite3.executeMultiple eng freshHandle sql
    (p.1, [.openDb, .execEvent sql, .closeDb])

/-- A concrete engine for witnesses: every statement succeeds as a mutation
report of zero changes and keeps the transaction active. -/
def trivialEngine : Engine :=
  ⟨fun _ _ => (.run 0 0, true), fun _ _ => (.ok (), true)⟩

/-- A concrete engine for witnesses: every statement fails with the engine's
native I/O error. -/
def failingEngine : Engine :=
  ⟨fun _ _ => (.sqlFailure "disk I/O error" "SQLITE_IOERR", true),
   fun _ _ => (.error (.sqliteError "disk I/O error" "SQLITE_IOERR"), true)⟩

/-! ## Lemmas about the decimal rendering -/

theorem decCharToNat_digitChar : ∀ d : ℕ, d < 10 → decCharToNat (Nat.digitChar d) = d := by
  decide

theorem digitChar_ne_minus : ∀ d : ℕ, d < 10 → Nat.digitChar d ≠ Char.ofNat 45 := by
  decide

theorem decListToNat_natToDec (n : ℕ) : decListToNat (natToDec n).data = n := by
  by_cases h : n = 0
  · subst h; rfl
  · have hshape : (natToDec n).data = ((Nat.digits 10 n).reverse.map Nat.digitChar) := by
      unfold natToDec; rw [if_neg h]
    rw [hshape]
    unfold decListToNat
    rw [List.map_map]
    have hmap : ((Nat.digits 10 n).reverse.map (decCharToNat ∘ Nat.digitChar))
        = (Nat.digits 10 n).reverse.map id := by
      apply List.map_congr_left
      intro a ha
      have ha10 : a < 10 := Nat.digits_lt_base (by norm_num) (List.mem_reverse.mp ha)
      simpa using decCharToNat_digitChar a ha10
    rw [hmap, List.map_id, List.reverse_reverse, Nat.ofDigits_digits]

theorem decStringToInt_natToDec (n : ℕ) : decStringToInt (natToDec n) = (n : ℤ) := by
  by_cases h : n = 0
  · subst h; rfl
  · obtain ⟨d, ds, hds⟩ : ∃ d ds, (Nat.digits 10 n).reverse = d :: ds := by
      have hne : Nat.digits 10 n ≠ [] := Nat.digits_ne_nil_iff_ne_zero.mpr h
      cases hrev : (Nat.digits 10 n).reverse with
      | nil => exact absurd (List.reverse_eq_nil_iff.mp hrev) hne
      | cons d ds => exact ⟨d, ds, rfl⟩
    have hd10 : d < 10 := by
      have hmem : d ∈ (Nat.digits 10 n).reverse := by rw [hds]; exact List.mem_cons_self d ds
      exact Nat.digits_lt_base (by norm_num) (List.mem_reverse.mp hmem)
    have hdata : (natToDec n).data = Nat.digitChar d :: ds.map Nat.digitChar := by
      unfold natToDec; rw [if_neg h]
      show ((Nat.digits 10 n).reverse.map Nat.digitChar) = _
      rw [hds]; rfl
    have hhead : ¬((natToDec n).data.head? = some (Char.ofNat 45)) := by
      rw [hdata]
      intro hsome
      exact digitChar_ne_minus d hd10 (Option.some.inj hsome)
    unfold decStringToInt
    rw [if_neg hhead, decListToNat_natToDec]

theorem decStringToInt_bigintToString (v : ℤ) : decStringToInt (bigintToString v) = v := by
  by_cases hv : v < 0
  · have hshape : bigintToString v = "-" ++ natToDec v.natAbs := by
      unfold bigintToString; rw [if_pos hv]
    have hdata : ("-" ++ natToDec v.natAbs).data = Char.ofNat 45 :: (natToDec v.natAbs).data := rfl
    rw [hshape]
    unfold decStringToInt
    rw [hdata, if_pos (show (Char.ofNat 45 :: (natToDec v.natAbs).data).head?
      = some (Char.ofNat 45) from rfl)]
    show -(decListToNat (natToDec v.natAbs).data : ℤ) = v
    rw [decListToNat_natToDec]
    omega
  · have hshape : bigintToString v = natToDec v.natAbs := by
      unfold bigintToString; rw [if_neg hv]
    rw [hshape, decStringToInt_natToDec]
    omega

/-! ## Reduction lemmas -/

theorem stmtArgs_named_single (s name : String) (v : InValue) :
    stmtArgs (.stmt s (.named [(name, v)]))
      = match valueToSql v with
        | .error e => Except.error e
        | .ok a => Except.ok (SqlArgs.named [(normalizeArgName name, a)]) := by
  have h0 : stmtArgs (.stmt s (.named [(name, v)]))
      = match mapNamedToSql [(name, v)] with
        | .error e => Except.error e
        | .ok as => Except.ok (SqlArgs.named as) := rfl
  have h1 : mapNamedToSql [(name, v)]
      = match valueToSql v with
        | .error e => Except.error e
        | .ok a => Except.ok [(normalizeArgName name, a)] := rfl
  rw [h0, h1]
  cases valueToSql v with
  | error e => rfl
  | ok a => rfl

theorem executeStmt_rows_red (columns : List String) (rawRows : List (List SqlValue))
    (stmt : InStatement) (intMode : IntMode) :
    executeStmt (.rows columns rawRows) stmt intMode
      = match stmtArgs stmt with
        | .error e => (.error e, false)
        | .ok _ =>
          match rowsFromSql rawRows intMode with
          | .error e => (.error (mapSqliteError e), true)
          | .ok rows => (.ok ⟨columns, rows, 0, none⟩, true) := by
  unfold executeStmt
  cases stmtArgs stmt with
  | error e => rfl
  | ok a => rfl

theorem executeStmt_run_red (changes : ℕ) (rowid : ℤ) (stmt : InStatement)
    (intMode : IntMode) :
    executeStmt (.run changes rowid) stmt intMode
      = match stmtArgs stmt with
        | .error e => (.error e, false)
        | .ok _ => (.ok ⟨[], [], changes, some rowid⟩, true) := by
  unfold executeStmt
  cases stmtArgs stmt with
  | error e => rfl
  | ok a => rfl

theorem executeStmt_sqlFailure_red (msg code : String) (stmt : InStatement)
    (intMode : IntMode) :
    executeStmt (.sqlFailure msg code) stmt intMode
      = match stmtArgs stmt with
        | .error e => (.error e, false)
        | .ok _ => (.error (.libsqlError msg code (some (.sqliteError msg code))), true) := by
  unfold executeStmt
  cases stmtArgs stmt with
  | error e => rfl
  | ok a => rfl

/-! ## Claim theorems -/

/-- **C1.** For every 64-bit integer value `v` received from the engine,
decoding `v` under IntMode `"number"` succeeds and returns the exact floating
value iff `|v| ≤ 2^53 − 1`, and otherwise raises a range error.  (Proved for
every integer `v`, which covers the 64-bit ones.) -/
theorem valueFromSql_intMode_number (v : ℤ) :
    (exceptOk (valueFromSql (.integer v) .number) = true ↔ v.natAbs ≤ 9007199254740991) ∧
    (v.natAbs ≤ 9007199254740991 →
      valueFromSql (.integer v) .number = .ok (.number (.finite (v : ℚ)))) ∧
    (9007199254740991 < v.natAbs →
      valueFromSql (.integer v) .number =
        .error (.rangeError
          "Received integer which cannot be safely represented as a JavaScript number")) := by
  have hred : valueFromSql (.integer v) .number
      = if v < minSafeBigint ∨ v > maxSafeBigint then
          Except.error (JsError.rangeError
            "Received integer which cannot be safely represented as a JavaScript number")
        else Except.ok (Value.number (JsNumber.finite (v : ℚ))) := rfl
  by_cases hc : v < minSafeBigint ∨ v > maxSafeBigint
  · have hna : 9007199254740991 < v.natAbs := by
      simp only [minSafeBigint, maxSafeBigint] at hc; omega
    have he : valueFromSql (.integer v) .number =
        .error (.rangeError
          "Received integer which cannot be safely represented as a JavaScript number") := by
      rw [hred, if_pos hc]
    refine ⟨?_, fun hle => absurd hle (by omega), fun _ => he⟩
    rw [he]
    constructor
    · intro hfalse; exact absurd hfalse (by simp [exceptOk])
    · intro hle; exact absurd hle (by omega)
  · have hna : v.natAbs ≤ 9007199254740991 := by
      simp only [minSafeBigint, maxSafeBigint] at hc; omega
    have he : valueFromSql (.integer v) .number = .ok (.number (.finite (v : ℚ))) := by
      rw [hred, if_neg hc]
    refine ⟨?_, fun _ => he, fun hgt => absurd hgt (by omega)⟩
    rw [he]
    exact ⟨fun _ => hna, fun _ => rfl⟩

/-- Witness for C1 at the concrete inputs `2^53` (range error) and `3`
(exact success). -/
theorem valueFromSql_intMode_number_witness :
    valueFromSql (.integer 9007199254740992) .number =
      .error (.rangeError
        "Received integer which cannot be safely represented as a JavaScript number") ∧
    valueFromSql (.integer 3) .number = .ok (.number (.finite ((3 : ℤ) : ℚ))) :=
  ⟨(valueFromSql_intMode_number 9007199254740992).2.2 (by norm_num),
   (valueFromSql_intMode_number 3).2.1 (by norm_num)⟩

/-- **C2.** For every 64-bit integer value `v`, decoding under IntMode
`"bigint"` or `"string"` always succeeds, and encoding the decoded host value
back through the argument-encoding path yields the same exact 64-bit value:
under `"bigint"` the re-encoded argument is the integer `v` itself; under
`"string"` the decoded value is the exact base-10 digit string of `v`, the
encode path passes it through unchanged, and that string determines `v`
exactly (parsing it back yields `v`). -/
theorem int64_decode_encode_roundtrip (v : ℤ)
    (h1 : minInteger ≤ v) (h2 : v ≤ maxInteger) :
    valueFromSql (.integer v) .bigint = .ok (.bigint v) ∧
    valueToSql (valueAsIn (.bigint v)) = .ok (.integer v) ∧
    valueFromSql (.integer v) .string = .ok (.text (bigintToString v)) ∧
    valueToSql (valueAsIn (.text (bigintToString v))) = .ok (.text (bigintToString v)) ∧
    decStringToInt (bigintToString v) = v := by
  refine ⟨rfl, ?_, rfl, rfl, decStringToInt_bigintToString v⟩
  show valueToSql (.bigint v) = .ok (.integer v)
  have hno : ¬(v < minInteger ∨ v > maxInteger) := by
    simp only [minInteger, maxInteger] at h1 h2 ⊢; omega
  have hred : valueToSql (.bigint v)
      = if v < minInteger ∨ v > maxInteger then
          Except.error (JsError.rangeError
            "bigint is too large to be represented as a 64-bit integer and passed as argument")
        else Except.ok (SqlArg.integer v) := rfl
  rw [hred, if_neg hno]

/-- Witness for C2 at the concrete 64-bit value `-42`. -/
theorem int64_decode_encode_roundtrip_witness :
    minInteger ≤ (-42 : ℤ) ∧ (-42 : ℤ) ≤ maxInteger ∧
    decStringToInt (bigintToString (-42)) = -42 :=
  ⟨by norm_num [minInteger], by norm_num [maxInteger],
   (int64_decode_encode_roundtrip (-42) (by norm_num [minInteger])
      (by norm_num [maxInteger])).2.2.2.2⟩

/-- **C4.** Argument encoding maps every host value per the spec's table —
finite numbers pass, non-finite numbers raise a range error, integers outside
the signed 64-bit range raise a range error and integers inside pass exactly,
`true`/`false` become integer 1/0, a timestamp becomes its millisecond epoch
value, the missing value raises a type error, everything else passes through
unchanged — and every such failure surfaces from `executeStmt` before any
engine call. -/
theorem valueToSql_encoding_table :
    (∀ n : JsNumber, n.isFinite = true → valueToSql (.number n) = .ok (.number n)) ∧
    (∀ n : JsNumber, n.isFinite = false →
      valueToSql (.number n) = .error (.rangeError
        "Only finite numbers (not Infinity or NaN) can be passed as arguments")) ∧
    (∀ v : ℤ, (v < -9223372036854775808 ∨ v > 9223372036854775807) →
      valueToSql (.bigint v) = .error (.rangeError
        "bigint is too large to be represented as a 64-bit integer and passed as argument")) ∧
    (∀ v : ℤ, -9223372036854775808 ≤ v → v ≤ 9223372036854775807 →
      valueToSql (.bigint v) = .ok (.integer v)) ∧
    valueToSql (.boolean true) = .ok (.integer 1) ∧
    valueToSql (.boolean false) = .ok (.integer 0) ∧
    (∀ ms : ℤ, valueToSql (.date ms) = .ok (.number (.finite (ms : ℚ)))) ∧
    valueToSql .undef = .error (.typeError
      "undefined cannot be passed as argument to the database") ∧
    valueToSql .null = .ok .null ∧
    (∀ s : String, valueToSql (.text s) = .ok (.text s)) ∧
    (∀ bytes : List ℕ, valueToSql (.blob bytes) = .ok (.blob bytes)) ∧
    (∀ (stmt : InStatement) (e : JsError) (reply : EngineReply) (intMode : IntMode),
      stmtArgs stmt = .error e → executeStmt reply stmt intMode = (.error e, false)) := by
  refine ⟨?_, ?_, ?_, ?_, rfl, rfl, fun _ => rfl, rfl, rfl, fun _ => rfl, fun _ => rfl, ?_⟩
  · intro n hn
    have hred : valueToSql (.number n)
        = if n.isFinite then Except.ok (SqlArg.number n)
          else Except.error (JsError.rangeError
            "Only finite numbers (not Infinity or NaN) can be passed as arguments") := rfl
    rw [hred, if_pos hn]
  · intro n hn
    have hred : valueToSql (.number n)
        = if n.isFinite then Except.ok (SqlArg.number n)
          else Except.error (JsError.rangeError
            "Only finite numbers (not Infinity or NaN) can be passed as arguments") := rfl
    rw [hred, if_neg (by simp [hn])]
  · intro v hv
    have hred : valueToSql (.bigint v)
        = if v < minInteger ∨ v > maxInteger then
            Except.error (JsError.rangeError
              "bigint is too large to be represented as a 64-bit integer and passed as argument")
          else Except.ok (SqlArg.integer v) := rfl
    rw [hred, if_pos (by simp only [minInteger, maxInteger]; omega)]
  · intro v h1 h2
    have hred : valueToSql (.bigint v)
        = if v < minInteger ∨ v > maxInteger then
            Except.error (JsError.rangeError
              "bigint is too large to be represented as a 64-bit integer and passed as argument")
          else Except.ok (SqlArg.integer v) := rfl
    rw [hred, if_neg (by simp only [minInteger, maxInteger]; omega)]
  · intro stmt e reply intMode h
    unfold executeStmt
    rw [h]

/-- Witness for C4 at the concrete out-of-range integer `2^63` and at the
missing value. -/
theorem valueToSql_encoding_table_witness :
    valueToSql (.bigint 9223372036854775808) = .error (.rangeError
      "bigint is too large to be represented as a 64-bit integer and passed as argument") ∧
    executeStmt (.run 0 0) (.stmt "SELECT ?" (.positional [.undef])) .number =
      (.error (.typeError "undefined cannot be passed as argument to the database"), false) :=
  ⟨valueToSql_encoding_table.2.2.1 9223372036854775808 (Or.inr (by norm_num)),
   valueToSql_encoding_table.2.2.2.2.2.2.2.2.2.2.2
     (.stmt "SELECT ?" (.positional [.undef])) _ (.run 0 0) .number rfl⟩

/-- **C9.** Named-argument binding strips a single leading `@`, `$` or `:`
sigil from each argument name before lookup: for every value `v` and SQL text
`s`, the mappings `{"@id": v}`, `{"$id": v}`, `{":id": v}` and `{"id": v}`
produce identical encoded argument mappings, binding parameter `id`. -/
theorem named_binding_sigil_stripping (s : String) (v : InValue) :
    stmtArgs (.stmt s (.named [("@id", v)])) = stmtArgs (.stmt s (.named [("id", v)])) ∧
    stmtArgs (.stmt s (.named [("$id", v)])) = stmtArgs (.stmt s (.named [("id", v)])) ∧
    stmtArgs (.stmt s (.named [(":id", v)])) = stmtArgs (.stmt s (.named [("id", v)])) := by
  have hgen : ∀ name : String, normalizeArgName name = "id" →
      stmtArgs (.stmt s (.named [(name, v)])) = stmtArgs (.stmt s (.named [("id", v)])) := by
    intro name hname
    rw [stmtArgs_named_single, stmtArgs_named_single, hname,
      (show normalizeArgName "id" = "id" from by decide)]
  exact ⟨hgen "@id" (by decide), hgen "$id" (by decide), hgen ":id" (by decide)⟩

/-- **C5.** For every row-producing statement the returned `ResultSet` has
`rowsAffected = 0` and no last-inserted-row id (and carries the engine's
column names); for every mutating statement the returned `ResultSet` has empty
columns and rows, and `rowsAffected` and the id reflect the engine's report. -/
theorem executeStmt_resultset_shape (reply : EngineReply) (stmt : InStatement)
    (intMode : IntMode) (rs : ResultSet) (touched : Bool)
    (h : executeStmt reply stmt intMode = (.ok rs, touched)) :
    (∀ columns rawRows, reply = .rows columns rawRows →
      rs.rowsAffected = 0 ∧ rs.lastInsertRowid = none ∧ rs.columns = columns) ∧
    (∀ changes rowid, reply = .run changes rowid →
      rs.columns = [] ∧ rs.rows = [] ∧ rs.rowsAffected = changes ∧
      rs.lastInsertRowid = some rowid) := by
  constructor
  · rintro columns rawRows rfl
    rw [executeStmt_rows_red] at h
    cases ha : stmtArgs stmt with
    | error e =>
      rw [ha] at h
      replace h : ((Except.error e : Except JsError ResultSet), false)
          = (Except.ok rs, touched) := h
      simp at h
    | ok args =>
      rw [ha] at h
      cases hr : rowsFromSql rawRows intMode with
      | error e =>
        rw [hr] at h
        replace h : ((Except.error (mapSqliteError e) : Except JsError ResultSet), true)
            = (Except.ok rs, touched) := h
        simp at h
      | ok rows =>
        rw [hr] at h
        replace h : ((Except.ok (⟨columns, rows, 0, none⟩ : ResultSet) :
            Except JsError ResultSet), true) = (Except.ok rs, touched) := h
        have hco := congrArg Prod.fst h
        have hrs : (⟨columns, rows, 0, none⟩ : ResultSet) = rs := by
          injection hco
        rw [← hrs]
        exact ⟨rfl, rfl, rfl⟩
  · rintro changes rowid rfl
    rw [executeStmt_run_red] at h
    cases ha : stmtArgs stmt with
    | error e =>
      rw [ha] at h
      replace h : ((Except.error e : Except JsError ResultSet), false)
          = (Except.ok rs, touched) := h
      simp at h
    | ok args =>
      rw [ha] at h
      replace h : ((Except.ok (⟨[], [], changes, some rowid⟩ : ResultSet) :
          Except JsError ResultSet), true) = (Except.ok rs, touched) := h
      have hco := congrArg Prod.fst h
      have hrs : (⟨[], [], changes, some rowid⟩ : ResultSet) = rs := by
        injection hco
      rw [← hrs]
      exact ⟨rfl, rfl, rfl, rfl⟩

/-- `mapSqliteError` never returns a raw engine `SqliteError`: the engine's
native error is wrapped into a `LibsqlError`, and anything else returned
unchanged was not a `SqliteError` to begin with. -/
theorem mapSqliteError_ne_sqlite (e : JsError) (m c : String) :
    mapSqliteError e ≠ .sqliteError m c := by
  cases e <;> simp [mapSqliteError]

theorem valueToSql_error_not_sqlite (v : InValue) (e : JsError)
    (h : valueToSql v = .error e) (m c : String) : e ≠ .sqliteError m c := by
  cases v with
  | number n =>
    have hred : valueToSql (.number n)
        = if n.isFinite then Except.ok (SqlArg.number n)
          else Except.error (JsError.rangeError
            "Only finite numbers (not Infinity or NaN) can be passed as arguments") := rfl
    by_cases hf : n.isFinite
    · rw [hred, if_pos hf] at h; exact Except.noConfusion h
    · rw [hred, if_neg hf] at h
      injection h with h1
      rw [← h1]; simp
  | bigint w =>
    have hred : valueToSql (.bigint w)
        = if w < minInteger ∨ w > maxInteger then
            Except.error (JsError.rangeError
              "bigint is too large to be represented as a 64-bit integer and passed as argument")
          else Except.ok (SqlArg.integer w) := rfl
    by_cases hb : w < minInteger ∨ w > maxInteger
    · rw [hred, if_pos hb] at h
      injection h with h1
      rw [← h1]; simp
    · rw [hred, if_neg hb] at h; exact Except.noConfusion h
  | text s => exact Except.noConfusion h
  | blob bytes => exact Except.noConfusion h
  | boolean b => exact Except.noConfusion h
  | date ms => exact Except.noConfusion h
  | null => exact Except.noConfusion h
  | undef =>
    injection h with h1
    rw [← h1]; simp

theorem valueFromSql_error_not_sqlite (v : SqlValue) (intMode : IntMode) (e : JsError)
    (h : valueFromSql v intMode = .error e) (m c : String) : e ≠ .sqliteError m c := by
  cases v with
  | integer w =>
    cases intMode with
    | number =>
      have hred : valueFromSql (.integer w) .number
          = if w < minSafeBigint ∨ w > maxSafeBigint then
              Except.error (JsError.rangeError
                "Received integer which cannot be safely represented as a JavaScript number")
            else Except.ok (Value.number (JsNumber.finite (w : ℚ))) := rfl
      by_cases hc : w < minSafeBigint ∨ w > maxSafeBigint
      · rw [hred, if_pos hc] at h
        injection h with h1
        rw [← h1]; simp
      · rw [hred, if_neg hc] at h; exact Except.noConfusion h
    | bigint => exact Except.noConfusion h
    | string => exact Except.noConfusion h
  | null => exact Except.noConfusion h
  | real q => exact Except.noConfusion h
  | text s => exact Except.noConfusion h
  | blob bytes => exact Except.noConfusion h

theorem mapValueToSql_error_not_sqlite (vs : List InValue) (e : JsError)
    (h : mapValueToSql vs = .error e) (m c : String) : e ≠ .sqliteError m c := by
  induction vs with
  | nil => exact Except.noConfusion h
  | cons v rest ih =>
    have hred : mapValueToSql (v :: rest)
        = match valueToSql v with
          | .error e0 => Except.error e0
          | .ok a =>
            match mapValueToSql rest with
            | .error e0 => Except.error e0
            | .ok as => Except.ok (a :: as) := rfl
    rw [hred] at h
    cases hv : valueToSql v with
    | error e0 =>
      rw [hv] at h
      replace h : (Except.error e0 : Except JsError (List SqlArg)) = .error e := h
      injection h with h1
      rw [← h1]; exact valueToSql_error_not_sqlite v e0 hv m c
    | ok a =>
      rw [hv] at h
      cases hrest : mapValueToSql rest with
      | error e0 =>
        rw [hrest] at h
        replace h : (Except.error e0 : Except JsError (List SqlArg)) = .error e := h
        injection h with h1
        rw [h1] at hrest; exact ih hrest
      | ok as =>
        rw [hrest] at h
        exact Except.noConfusion (h : (Except.ok (a :: as) : Except JsError (List SqlArg)) = .error e)

theorem mapNamedToSql_error_not_sqlite (ps : List (String × InValue)) (e : JsError)
    (h : mapNamedToSql ps = .error e) (m c : String) : e ≠ .sqliteError m c := by
  induction ps with
  | nil => exact Except.noConfusion h
  | cons p rest ih =>
    have hred : mapNamedToSql (p :: rest)
        = match valueToSql p.2 with
          | .error e0 => Except.error e0
          | .ok a =>
            match mapNamedToSql rest with
            | .error e0 => Except.error e0
            | .ok as => Except.ok ((normalizeArgName p.1, a) :: as) := rfl
    rw [hred] at h
    cases hv : valueToSql p.2 with
    | error e0 =>
      rw [hv] at h
      replace h : (Except.error e0 : Except JsError (List (String × SqlArg))) = .error e := h
      injection h with h1
      rw [← h1]; exact valueToSql_error_not_sqlite p.2 e0 hv m c
    | ok a =>
      rw [hv] at h
      cases hrest : mapNamedToSql rest with
      | error e0 =>
        rw [hrest] at h
        replace h : (Except.error e0 : Except JsError (List (String × SqlArg))) = .error e := h
        injection h with h1
        rw [h1] at hrest; exact ih hrest
      | ok as =>
        rw [hrest] at h
        exact Except.noConfusion
          (h : (Except.ok ((normalizeArgName p.1, a) :: as) :
            Except JsError (List (String × SqlArg))) = .error e)

theorem stmtArgs_error_not_sqlite (stmt : InStatement) (e : JsError)
    (h : stmtArgs stmt = .error e) (m c : String) : e ≠ .sqliteError m c := by
  cases stmt with
  | sql s => exact Except.noConfusion h
  | stmt s args =>
    cases args with
    | positional vs =>
      have hred : stmtArgs (.stmt s (.positional vs))
          = match mapValueToSql vs with
            | .error e0 => Except.error e0
            | .ok as => Except.ok (SqlArgs.positional as) := rfl
      rw [hred] at h
      cases hm : mapValueToSql vs with
      | error e0 =>
        rw [hm] at h
        replace h : (Except.error e0 : Except JsError SqlArgs) = .error e := h
        injection h with h1
        rw [← h1]; exact mapValueToSql_error_not_sqlite vs e0 hm m c
      | ok as =>
        rw [hm] at h
        exact Except.noConfusion
          (h : (Except.ok (SqlArgs.positional as) : Except JsError SqlArgs) = .error e)
    | named ps =>
      have hred : stmtArgs (.stmt s (.named ps))
          = match mapNamedToSql ps with
            | .error e0 => Except.error e0
            | .ok as => Except.ok (SqlArgs.named as) := rfl
      rw [hred] at h
      cases hm : mapNamedToSql ps with
      | error e0 =>
        rw [hm] at h
        replace h : (Except.error e0 : Except JsError SqlArgs) = .error e := h
        injection h with h1
        rw [← h1]; exact mapNamedToSql_error_not_sqlite ps e0 hm m c
      | ok as =>
        rw [hm] at h
        exact Except.noConfusion
          (h : (Except.ok (SqlArgs.named as) : Except JsError SqlArgs) = .error e)

theorem rowFromSql_error_not_sqlite (r : List SqlValue) (intMode : IntMode) (e : JsError)
    (h : rowFromSql r intMode = .error e) (m c : String) : e ≠ .sqliteError m c := by
  induction r with
  | nil => exact Except.noConfusion h
  | cons v rest ih =>
    have hred : rowFromSql (v :: rest) intMode
        = match valueFromSql v intMode with
          | .error e0 => Except.error e0
          | .ok w =>
            match rowFromSql rest intMode with
            | .error e0 => Except.error e0
            | .ok ws => Except.ok (w :: ws) := rfl
    rw [hred] at h
    cases hv : valueFromSql v intMode with
    | error e0 =>
      rw [hv] at h
      replace h : (Except.error e0 : Except JsError (List Value)) = .error e := h
      injection h with h1
      rw [← h1]; exact valueFromSql_error_not_sqlite v intMode e0 hv m c
    | ok w =>
      rw [hv] at h
      cases hrest : rowFromSql rest intMode with
      | error e0 =>
        rw [hrest] at h
        replace h : (Except.error e0 : Except JsError (List Value)) = .error e := h
        injection h with h1
        rw [h1] at hrest; exact ih hrest
      | ok ws =>
        rw [hrest] at h
        exact Except.noConfusion (h : (Except.ok (w :: ws) : Except JsError (List Value)) = .error e)

theorem rowsFromSql_error_not_sqlite (rws : List (List SqlValue)) (intMode : IntMode)
    (e : JsError) (h : rowsFromSql rws intMode = .error e) (m c : String) :
    e ≠ .sqliteError m c := by
  induction rws with
  | nil => exact Except.noConfusion h
  | cons r rest ih =>
    have hred : rowsFromSql (r :: rest) intMode
        = match rowFromSql r intMode with
          | .error e0 => Except.error e0
          | .ok row =>
            match rowsFromSql rest intMode with
            | .error e0 => Except.error e0
            | .ok rows => Except.ok (row :: rows) := rfl
    rw [hred] at h
    cases hr : rowFromSql r intMode with
    | error e0 =>
      rw [hr] at h
      replace h : (Except.error e0 : Except JsError (List (List Value))) = .error e := h
      injection h with h1
      rw [← h1]; exact rowFromSql_error_not_sqlite r intMode e0 hr m c
    | ok row =>
      rw [hr] at h
      cases hrest : rowsFromSql rest intMode with
      | error e0 =>
        rw [hrest] at h
        replace h : (Except.error e0 : Except JsError (List (List Value))) = .error e := h
        injection h with h1
        rw [h1] at hrest; exact ih hrest
      | ok rows =>
        rw [hrest] at h
        exact Except.noConfusion
          (h : (Except.ok (row :: rows) : Except JsError (List (List Value))) = .error e)

/-- **C7.** Every engine-native failure (`SqliteError`) raised during
statement preparation or execution is re-raised as a `LibsqlError` carrying
the engine's message, its stable string code, and the original error as
cause; and no raw engine `SqliteError` ever escapes `executeStmt`, whatever
the reply and statement. -/
theorem engine_error_normalization (stmt : InStatement) (intMode : IntMode) :
    (∀ msg code, exceptOk (stmtArgs stmt) = true →
      executeStmt (.sqlFailure msg code) stmt intMode
        = (.error (.libsqlError msg code (some (.sqliteError msg code))), true)) ∧
    (∀ (reply : EngineReply) (e : JsError) (touched : Bool),
      executeStmt reply stmt intMode = (.error e, touched) →
      ∀ msg code, e ≠ .sqliteError msg code) := by
  constructor
  · intro msg code hok
    rw [executeStmt_sqlFailure_red]
    cases ha : stmtArgs stmt with
    | error e => rw [ha] at hok; exact absurd hok (by simp [exceptOk])
    | ok args => rfl
  · intro reply e touched h msg code
    cases reply with
    | rows columns rawRows =>
      rw [executeStmt_rows_red] at h
      cases ha : stmtArgs stmt with
      | error e0 =>
        rw [ha] at h
        replace h : ((Except.error e0 : Except JsError ResultSet), false)
            = (Except.error e, touched) := h
        have hco := congrArg Prod.fst h
        injection hco with h1
        rw [← h1]; exact stmtArgs_error_not_sqlite stmt e0 ha msg code
      | ok args =>
        rw [ha] at h
        cases hr : rowsFromSql rawRows intMode with
        | error e0 =>
          rw [hr] at h
          replace h : ((Except.error (mapSqliteError e0) : Except JsError ResultSet), true)
              = (Except.error e, touched) := h
          have hco := congrArg Prod.fst h
          injection hco with h1
          rw [← h1]; exact mapSqliteError_ne_sqlite e0 msg code
        | ok rows =>
          rw [hr] at h
          replace h : ((Except.ok (⟨columns, rows, 0, none⟩ : ResultSet) :
              Except JsError ResultSet), true) = (Except.error e, touched) := h
          exact Except.noConfusion (congrArg Prod.fst h)
    | run changes rowid =>
      rw [executeStmt_run_red] at h
      cases ha : stmtArgs stmt with
      | error e0 =>
        rw [ha] at h
        replace h : ((Except.error e0 : Except JsError ResultSet), false)
            = (Except.error e, touched) := h
        have hco := congrArg Prod.fst h
        injection hco with h1
        rw [← h1]; exact stmtArgs_error_not_sqlite stmt e0 ha msg code
      | ok args =>
        rw [ha] at h
        replace h : ((Except.ok (⟨[], [], changes, some rowid⟩ : ResultSet) :
            Except JsError ResultSet), true) = (Except.error e, touched) := h
        exact Except.noConfusion (congrArg Prod.fst h)
    | sqlFailure m2 c2 =>
      rw [executeStmt_sqlFailure_red] at h
      cases ha : stmtArgs stmt with
      | error e0 =>
        rw [ha] at h
        replace h : ((Except.error e0 : Except JsError ResultSet), false)
            = (Except.error e, touched) := h
        have hco := congrArg Prod.fst h
        injection hco with h1
        rw [← h1]; exact stmtArgs_error_not_sqlite stmt e0 ha msg code
      | ok args =>
        rw [ha] at h
        replace h : ((Except.error (.libsqlError m2 c2 (some (.sqliteError m2 c2))) :
            Except JsError ResultSet), true) = (Except.error e, touched) := h
        have hco := congrArg Prod.fst h
        injection hco with h1
        rw [← h1]; simp

/-- Witness for C7 at a concrete engine failure. -/
theorem engine_error_normalization_witness :
    exceptOk (stmtArgs (.sql "SELECT 1")) = true ∧
    executeStmt (.sqlFailure "no such table: t" "SQLITE_ERROR") (.sql "SELECT 1") .number
      = (.error (.libsqlError "no such table: t" "SQLITE_ERROR"
          (some (.sqliteError "no such table: t" "SQLITE_ERROR"))), true) :=
  ⟨rfl,
   (engine_error_normalization (.sql "SELECT 1") .number).1
     "no such table: t" "SQLITE_ERROR" rfl⟩

/-- Witness for C5: a concrete mutation reply and a concrete data reply. -/
theorem executeStmt_resultset_shape_witness :
    ((⟨[], [], 1, some 5⟩ : ResultSet).columns = [] ∧
      (⟨[], [], 1, some 5⟩ : ResultSet).rows = [] ∧
      (⟨[], [], 1, some 5⟩ : ResultSet).rowsAffected = 1 ∧
      (⟨[], [], 1, some 5⟩ : ResultSet).lastInsertRowid = some 5) ∧
    ((⟨["x"], [[Value.null]], 0, none⟩ : ResultSet).rowsAffected = 0 ∧
      (⟨["x"], [[Value.null]], 0, none⟩ : ResultSet).lastInsertRowid = none ∧
      (⟨["x"], [[Value.null]], 0, none⟩ : ResultSet).columns = ["x"]) :=
  ⟨(executeStmt_resultset_shape (.run 1 5) (.sql "INSERT INTO t VALUES (1)") .number
      ⟨[], [], 1, some 5⟩ true rfl).2 1 5 rfl,
   (executeStmt_resultset_shape (.rows ["x"] [[SqlValue.null]]) (.sql "SELECT 1") .number
      ⟨["x"], [[Value.null]], 0, none⟩ true rfl).1 ["x"] [[SqlValue.null]] rfl⟩

/-! ## Transaction state machine lemmas -/

theorem checkNotClosed_guard (st : TxState)
    (h : st.isOpen = false ∨ st.inTransaction = false) :
    Sqlite3Transaction.checkNotClosed st = .error transactionClosedError := by
  unfold Sqlite3Transaction.checkNotClosed
  rw [if_pos (show (!st.isOpen || !st.inTransaction) = true by
    rcases h with h | h <;> simp [h])]

theorem checkNotClosed_pass (st : TxState)
    (h1 : st.isOpen = true) (h2 : st.inTransaction = true) :
    Sqlite3Transaction.checkNotClosed st = .ok () := by
  unfold Sqlite3Transaction.checkNotClosed
  rw [if_neg (by simp [h1, h2])]

theorem executeStmtOn_isOpen (step : TxState → InStatement → EngineReply × Bool)
    (st : TxState) (stmt : InStatement) (intMode : IntMode) :
    ((executeStmtOn step st stmt intMode).2.1).isOpen = st.isOpen := by
  unfold executeStmtOn
  cases stmtArgs stmt with
  | error e => rfl
  | ok a => rfl

theorem rollback_noop (eng : Engine) (intMode : IntMode) (st : TxState)
    (h0 : st.isOpen = false) :
    Sqlite3Transaction.rollback eng intMode st = (.ok (), st, []) := by
  unfold Sqlite3Transaction.rollback
  rw [if_pos (show (!st.isOpen) = true by simp [h0])]

theorem rollback_red (eng : Engine) (intMode : IntMode) (st : TxState)
    (h1 : st.isOpen = true) (h2 : st.inTransaction = true) :
    Sqlite3Transaction.rollback eng intMode st
      = (match (executeStmtOn eng.step st (.sql "ROLLBACK") intMode).1 with
         | .error e => (.error e,
             (executeStmtOn eng.step st (.sql "ROLLBACK") intMode).2.1,
             [EngineEvent.stmtEvent (.sql "ROLLBACK")])
         | .ok _ => (.ok (),
             { (executeStmtOn eng.step st (.sql "ROLLBACK") intMode).2.1 with isOpen := false },
             [EngineEvent.stmtEvent (.sql "ROLLBACK"), .closeDb])) := by
  unfold Sqlite3Transaction.rollback
  rw [if_neg (by simp [h1]), checkNotClosed_pass st h1 h2]

theorem commit_red (eng : Engine) (intMode : IntMode) (st : TxState)
    (h1 : st.isOpen = true) (h2 : st.inTransaction = true) :
    Sqlite3Transaction.commit eng intMode st
      = (match (executeStmtOn eng.step st (.sql "COMMIT") intMode).1 with
         | .error e => (.error e,
             (executeStmtOn eng.step st (.sql "COMMIT") intMode).2.1,
             [EngineEvent.stmtEvent (.sql "COMMIT")])
         | .ok _ => (.ok (),
             { (executeStmtOn eng.step st (.sql "COMMIT") intMode).2.1 with isOpen := false },
             [EngineEvent.stmtEvent (.sql "COMMIT"), .closeDb])) := by
  unfold Sqlite3Transaction.commit
  rw [checkNotClosed_pass st h1 h2]

/-- **C3 (counterexample).** On a transaction whose handle is no longer open
(and with no active transaction), `batch` with an empty statement list
performs no check at all and succeeds, where the claim demands a
transaction-closed failure for every operation. -/
theorem transaction_closed_guard_counterexample :
    Sqlite3Transaction.batch trivialEngine .number ⟨false, false⟩ []
      = (.ok [], ⟨false, false⟩, []) := rfl

/-- **C3 (amended).** `execute`, `executeMultiple` and `commit` first check
that the handle is open and the engine reports an active transaction, and
fail with the transaction-closed lifecycle error without any engine
interaction when either check fails; `batch` runs the same check before each
statement rather than once up front, so a batch with at least one statement
fails identically before any engine interaction, while a batch of zero
statements performs no check and succeeds. -/
theorem transaction_closed_guard (eng : Engine) (intMode : IntMode) (st : TxState)
    (stmt : InStatement) (stmts : List InStatement) (sql : String)
    (h : st.isOpen = false ∨ st.inTransaction = false) :
    Sqlite3Transaction.execute eng intMode st stmt
      = (.error transactionClosedError, st, []) ∧
    Sqlite3Transaction.executeMultiple eng st sql
      = (.error transactionClosedError, st, []) ∧
    Sqlite3Transaction.commit eng intMode st
      = (.error transactionClosedError, st, []) ∧
    (stmts ≠ [] → Sqlite3Transaction.batch eng intMode st stmts
      = (.error transactionClosedError, st, [])) ∧
    Sqlite3Transaction.batch eng intMode st [] = (.ok [], st, []) := by
  have hg := checkNotClosed_guard st h
  refine ⟨?_, ?_, ?_, ?_, rfl⟩
  · unfold Sqlite3Transaction.execute
    rw [hg]
  · unfold Sqlite3Transaction.executeMultiple
    rw [hg]
  · unfold Sqlite3Transaction.commit
    rw [hg]
  · intro hne
    cases stmts with
    | nil => exact absurd rfl hne
    | cons s1 rest =>
      unfold Sqlite3Transaction.batch Sqlite3Transaction.batchGo
      rw [hg]

/-- Witness for the amended C3 on a concrete released handle. -/
theorem transaction_closed_guard_witness :
    Sqlite3Transaction.execute trivialEngine .number ⟨false, false⟩ (.sql "SELECT 1")
      = (.error transactionClosedError, ⟨false, false⟩, []) ∧
    Sqlite3Transaction.batch trivialEngine .number ⟨false, false⟩ [.sql "SELECT 1"]
      = (.error transactionClosedError, ⟨false, false⟩, []) :=
  ⟨(transaction_closed_guard trivialEngine .number ⟨false, false⟩ (.sql "SELECT 1")
      [.sql "SELECT 1"] "SELECT 1" (Or.inl rfl)).1,
   (transaction_closed_guard trivialEngine .number ⟨false, false⟩ (.sql "SELECT 1")
      [.sql "SELECT 1"] "SELECT 1" (Or.inl rfl)).2.2.2.1 (by simp)⟩

/-- **C6.** After `close()` on a client, every operation — `execute`,
`batch`, `transaction`, `executeMultiple` — rejects with the client-closed
lifecycle error and performs zero engine calls (empty engine trace). -/
theorem client_closed_rejects (c : Sqlite3Client) (eng : Engine) (stmt : InStatement)
    (stmts : List InStatement) (mode : TransactionMode) (sql : String) :
    (Sqlite3Client.close c).closed = true ∧
    Sqlite3Client.execute (Sqlite3Client.close c) eng stmt
      = (.error clientClosedError, []) ∧
    Sqlite3Client.batch (Sqlite3Client.close c) eng stmts mode
      = (.error clientClosedError, []) ∧
    Sqlite3Client.transaction (Sqlite3Client.close c) eng mode
      = (.error clientClosedError, []) ∧
    Sqlite3Client.executeMultiple (Sqlite3Client.close c) eng sql
      = (.error clientClosedError, []) := by
  have hg : Sqlite3Client.checkNotClosed (Sqlite3Client.close c)
      = .error clientClosedError := by
    unfold Sqlite3Client.checkNotClosed Sqlite3Client.close
    rw [if_pos (show ({ c with closed := true } : Sqlite3Client).closed = true from rfl)]
  refine ⟨rfl, ?_, ?_, ?_, ?_⟩
  · unfold Sqlite3Client.execute
    rw [hg]
  · unfold Sqlite3Client.batch
    rw [hg]
  · unfold Sqlite3Client.transaction
    rw [hg]
  · unfold Sqlite3Client.executeMultiple
    rw [hg]

/-- **C8 (counterexample).** A transaction handle that is still open while
the engine no longer reports an active transaction (the auto-rollback state):
`rollback()` is neither a no-op nor a ROLLBACK-then-release — it throws the
transaction-closed lifecycle error, issues nothing, and does not release the
handle. -/
theorem rollback_counterexample :
    Sqlite3Transaction.rollback trivialEngine .number ⟨true, false⟩
      = (.error transactionClosedError, ⟨true, false⟩, []) ∧
    (⟨true, false⟩ : TxState).isOpen = true := ⟨rfl, rfl⟩

/-- **C8 (amended).** `rollback()` is a no-op when the handle was already
released; when the handle is open but the engine reports no active
transaction it fails with the transaction-closed error without engine
interaction; when the handle is open with an active transaction it issues
ROLLBACK; and whenever it returns successfully the handle is released
afterwards, so a second `rollback()` is a no-op. -/
theorem rollback_idempotent (eng : Engine) (intMode : IntMode) (st : TxState) :
    (st.isOpen = false → Sqlite3Transaction.rollback eng intMode st = (.ok (), st, [])) ∧
    (st.isOpen = true → st.inTransaction = false →
      Sqlite3Transaction.rollback eng intMode st
        = (.error transactionClosedError, st, [])) ∧
    (st.isOpen = true → st.inTransaction = true →
      (Sqlite3Transaction.rollback eng intMode st).2.2.head?
        = some (.stmtEvent (.sql "ROLLBACK"))) ∧
    (∀ u st2 tr, Sqlite3Transaction.rollback eng intMode st = (.ok u, st2, tr) →
      st2.isOpen = false ∧
      Sqlite3Transaction.rollback eng intMode st2 = (.ok (), st2, [])) := by
  refine ⟨fun h0 => rollback_noop eng intMode st h0, ?_, ?_, ?_⟩
  · intro h1 h2
    unfold Sqlite3Transaction.rollback
    rw [if_neg (by simp [h1]), checkNotClosed_guard st (Or.inr h2)]
  · intro h1 h2
    rw [rollback_red eng intMode st h1 h2]
    cases (executeStmtOn eng.step st (.sql "ROLLBACK") intMode).1 with
    | error e => rfl
    | ok u => rfl
  · intro u st2 tr h
    by_cases h1 : st.isOpen = true
    · by_cases h2 : st.inTransaction = true
      · rw [rollback_red eng intMode st h1 h2] at h
        cases hq : (executeStmtOn eng.step st (.sql "ROLLBACK") intMode).1 with
        | error e =>
          rw [hq] at h
          replace h : ((Except.error e : Except JsError Unit),
              (executeStmtOn eng.step st (.sql "ROLLBACK") intMode).2.1,
              [EngineEvent.stmtEvent (.sql "ROLLBACK")]) = (.ok u, st2, tr) := h
          exact Except.noConfusion (congrArg Prod.fst h)
        | ok u0 =>
          rw [hq] at h
          replace h : ((Except.ok () : Except JsError Unit),
              ({ (executeStmtOn eng.step st (.sql "ROLLBACK") intMode).2.1 with
                isOpen := false } : TxState),
              [EngineEvent.stmtEvent (.sql "ROLLBACK"), EngineEvent.closeDb])
              = (.ok u, st2, tr) := h
          have hst : ({ (executeStmtOn eng.step st (.sql "ROLLBACK") intMode).2.1 with
              isOpen := false } : TxState) = st2 := congrArg (fun p => p.2.1) h
          have hop : st2.isOpen = false := by rw [← hst]
          exact ⟨hop, rollback_noop eng intMode st2 hop⟩
      · have h2f : st.inTransaction = false := by
          cases hit : st.inTransaction
          · rfl
          · exact absurd hit h2
        unfold Sqlite3Transaction.rollback at h
        rw [if_neg (by simp [h1]), checkNotClosed_guard st (Or.inr h2f)] at h
        exact Except.noConfusion (congrArg Prod.fst h)
    · have h1f : st.isOpen = false := by
        cases hio : st.isOpen
        · rfl
        · exact absurd hio h1
      rw [rollback_noop eng intMode st h1f] at h
      have hst : st = st2 := congrArg (fun p => p.2.1) h
      exact ⟨hst ▸ h1f, hst ▸ rollback_noop eng intMode st h1f⟩

/-- Witness for the amended C8: a released handle (no-op) and an open handle
whose engine succeeds on ROLLBACK (release, then no-op). -/
theorem rollback_idempotent_witness :
    Sqlite3Transaction.rollback trivialEngine .number ⟨false, false⟩
      = (.ok (), ⟨false, false⟩, []) ∧
    (Sqlite3Transaction.rollback trivialEngine .number ⟨false, true⟩
      = (.ok (), ⟨false, true⟩, [])) :=
  ⟨(rollback_idempotent trivialEngine .number ⟨false, false⟩).1 rfl,
   (rollback_idempotent trivialEngine .number ⟨false, true⟩).1 rfl⟩

/-- **C10.** If the COMMIT issued by `commit()` fails, the handle is not
released: the resulting state is still open, the `closed` query still reports
`false`, a subsequent `close()` releases the handle, and — when the engine
still reports an active transaction — a subsequent `rollback()` issues
ROLLBACK. -/
theorem commit_failure_keeps_handle (eng : Engine) (intMode : IntMode) (st : TxState)
    (e : JsError) (h1 : st.isOpen = true) (h2 : st.inTransaction = true)
    (hfail : (Sqlite3Transaction.commit eng intMode st).1 = .error e) :
    ((Sqlite3Transaction.commit eng intMode st).2.1).isOpen = true ∧
    Sqlite3Transaction.closed ((Sqlite3Transaction.commit eng intMode st).2.1) = false ∧
    ((Sqlite3Transaction.close ((Sqlite3Transaction.commit eng intMode st).2.1)).1).isOpen
      = false ∧
    (((Sqlite3Transaction.commit eng intMode st).2.1).inTransaction = true →
      (Sqlite3Transaction.rollback eng intMode
        ((Sqlite3Transaction.commit eng intMode st).2.1)).2.2.head?
        = some (.stmtEvent (.sql "ROLLBACK"))) := by
  rw [commit_red eng intMode st h1 h2] at hfail ⊢
  cases hq : (executeStmtOn eng.step st (.sql "COMMIT") intMode).1 with
  | ok u =>
    rw [hq] at hfail
    exact Except.noConfusion (hfail :
      (Except.ok () : Except JsError Unit) = .error e)
  | error e0 =>
    have hop : ((executeStmtOn eng.step st (.sql "COMMIT") intMode).2.1).isOpen = true := by
      rw [executeStmtOn_isOpen]; exact h1
    refine ⟨hop, ?_, rfl, ?_⟩
    · show Sqlite3Transaction.closed
        ((executeStmtOn eng.step st (.sql "COMMIT") intMode).2.1) = false
      unfold Sqlite3Transaction.closed
      rw [hop]
      rfl
    · intro hin
      replace hin : ((executeStmtOn eng.step st
          (.sql "COMMIT") intMode).2.1).inTransaction = true := hin
      show (Sqlite3Transaction.rollback eng intMode
          ((executeStmtOn eng.step st (.sql "COMMIT") intMode).2.1)).2.2.head?
        = some (.stmtEvent (.sql "ROLLBACK"))
      rw [rollback_red eng intMode _ hop hin]
      cases (executeStmtOn eng.step
          ((executeStmtOn eng.step st (.sql "COMMIT") intMode).2.1)
          (.sql "ROLLBACK") intMode).1 with
      | error e1 => rfl
      | ok u1 => rfl

/-- Witness for C10 on a concrete engine whose COMMIT fails. -/
theorem commit_failure_keeps_handle_witness :
    ((Sqlite3Transaction.commit failingEngine .number ⟨true, true⟩).2.1).isOpen = true ∧
    Sqlite3Transaction.closed
      ((Sqlite3Transaction.commit failingEngine .number ⟨true, true⟩).2.1) = false :=
  ⟨(commit_failure_keeps_handle failingEngine .number ⟨true, true⟩
      (.libsqlError "disk I/O error" "SQLITE_IOERR"
        (some (.sqliteError "disk I/O error" "SQLITE_IOERR"))) rfl rfl rfl).1,
   (commit_failure_keeps_handle failingEngine .number ⟨true, true⟩
      (.libsqlError "disk I/O error" "SQLITE_IOERR"
        (some (.sqliteError "disk I/O error" "SQLITE_IOERR"))) rfl rfl rfl).2.1⟩

end LibsqlSqlite3
